import Mathlib

/-!
Verification of the TransRouter duplex audio streaming engine against its
design specification.  The definitions below are shallow embeddings of the
Python source: `device.py` (capture/playback callbacks), `gemini_transcriber.py`
(queue iterator, receive loop, session management, audio forwarding) and
`translator.py` (frame routing, recording accumulator, shutdown).  Queues are
embedded as lists (front = next element to be dequeued), byte buffers as
`List Nat`, decoded int16 sample arrays as `List Int`.
-/

/-! ## Playback engine: the `playout` callback of `device.py`

State owned by the callback closure: the `nonlocal buffer` byte accumulator
and the `done` event set once the input iterator is exhausted. -/

/-- The `playout` callback's closure state: `buffer` is the `bytearray`
accumulator, `done` mirrors the `asyncio.Event` raised at end of stream. -/
structure PlayoutState where
  buffer : List Nat
  done : Bool
deriving DecidableEq, Repr

/-- Outcome of `future.result(timeout=0.1)` on `queue.get()`: either a frame
of bytes arrives within the timeout, or the pull times out / fails. -/
inductive PullResult where
  | success (data : List Nat)
  | failure
deriving DecidableEq, Repr

/-- What one callback invocation does to the output stream: emit a byte
string via `outdata.write`, or raise `sd.CallbackStop`. -/
inductive CallbackResult where
  | emit (out : List Nat)
  | stop
deriving DecidableEq, Repr

/-- Number of bytes written to the output by a callback invocation. -/
def emitLength : CallbackResult → Nat
  | CallbackResult.emit out => out.length
  | CallbackResult.stop => 0

/-- Shallow embedding of the playback callback in `playout` (`device.py`
lines 100-128).  `requiredBytes` is `frames * channels * itemsize`.  If the
buffer is short, one pull from the input queue is attempted; on pull failure
the callback either raises `CallbackStop` (when `done` is set and the buffer
is empty) or pads the shortfall with zero bytes.  It then writes
`bytes(buffer[:required_bytes])` and deletes that slice from the buffer. -/
def playoutCallback (st : PlayoutState) (requiredBytes : Nat) (pull : PullResult) :
    CallbackResult × List Nat :=
  if st.buffer.length < requiredBytes then
    match pull with
    | PullResult.success data =>
        let b := st.buffer ++ data
        (CallbackResult.emit (b.take requiredBytes), b.drop requiredBytes)
    | PullResult.failure =>
        if st.done && st.buffer.isEmpty then
          (CallbackResult.stop, st.buffer)
        else
          let b := st.buffer ++ List.replicate (requiredBytes - st.buffer.length) 0
          (CallbackResult.emit (b.take requiredBytes), b.drop requiredBytes)
  else
    (CallbackResult.emit (st.buffer.take requiredBytes), st.buffer.drop requiredBytes)

/-! ## Capture engine: the `record` callback of `device.py`

The callback hands `bytes(indata)` to `queue.put_nowait` through
`call_soon_threadsafe`; the queue is created as `asyncio.Queue()` with no
`maxsize`, so the enqueue never blocks and never drops. -/

/-- Shallow embedding of the capture callback in `record` (`device.py`
lines 42-48): append the captured frame to the unbounded hand-off queue. -/
def recordCallback (queue : List (List Nat)) (indata : List Nat) : List (List Nat) :=
  queue ++ [indata]

/-- Queue contents after `n` capture-callback invocations with a stalled
consumer (no intervening `queue.get()`). -/
def captureQueueAfter : Nat → List (List Nat)
  | 0 => []
  | n + 1 => recordCallback (captureQueueAfter n) [0]

lemma captureQueueAfter_length (n : Nat) : (captureQueueAfter n).length = n := by
  induction n with
  | zero => rfl
  | succ n ih => simp [captureQueueAfter, recordCallback, ih]

/-! ## Claims C1, C3, C4 -/

/-- Claim C1: the spec asserts that every playback-callback invocation
requesting `R` bytes writes exactly `R` bytes.  The code violates this on the
successful-pull path: with an empty buffer, `required_bytes = 4` and a pull
that returns a 2-byte frame, the callback writes `bytes(buffer[:4])` of a
2-byte buffer — only 2 bytes — and does not take the padding path. -/
theorem playout_short_pull_writes_fewer :
    (playoutCallback { buffer := [], done := false } 4 (PullResult.success [9, 9])).1
      = CallbackResult.emit [9, 9] ∧
    emitLength (playoutCallback { buffer := [], done := false } 4
      (PullResult.success [9, 9])).1 = 2 ∧
    (2 : Nat) ≠ 4 := by
  refine ⟨rfl, rfl, by decide⟩

/-- Claim C4: in an invocation where the pull from the input queue fails
(which presupposes the buffer held fewer than the required bytes), the
callback raises the terminal stop exactly when the end-of-stream event is set
and the buffer is empty; in every other such invocation it pads the shortfall
with zero bytes and emits exactly the required byte count. -/
theorem playout_pull_failure_policy (st : PlayoutState) (required : Nat)
    (h : st.buffer.length < required) :
    (((playoutCallback st required PullResult.failure).1 = CallbackResult.stop)
        ↔ (st.done && st.buffer.isEmpty) = true) ∧
    ((st.done && st.buffer.isEmpty) = false →
      (playoutCallback st required PullResult.failure).1
        = CallbackResult.emit
            (st.buffer ++ List.replicate (required - st.buffer.length) 0) ∧
      emitLength (playoutCallback st required PullResult.failure).1 = required) := by
  have hlen : (st.buffer ++ List.replicate (required - st.buffer.length) 0).length
      = required := by
    simp [List.length_append, List.length_replicate]
    omega
  unfold playoutCallback
  rw [if_pos h]
  cases hg : st.done && st.buffer.isEmpty with
  | true =>
      simp [hg]
  | false =>
      have htake : (st.buffer ++ List.replicate (required - st.buffer.length) 0).take
          required = st.buffer ++ List.replicate (required - st.buffer.length) 0 :=
        List.take_of_length_le (le_of_eq hlen)
      simp [hg, htake, emitLength, hlen]

/-- Witness for C4 at a concrete input: buffer `[7]`, `done` set,
`required = 3`; the buffer is nonempty, so the callback pads and emits
`[7, 0, 0]` rather than stopping. -/
theorem playout_pull_failure_policy_witness :
    (((playoutCallback { buffer := [7], done := true } 3 PullResult.failure).1
        = CallbackResult.stop)
      ↔ (true && ([7] : List Nat).isEmpty) = true) ∧
    ((true && ([7] : List Nat).isEmpty) = false →
      (playoutCallback { buffer := [7], done := true } 3 PullResult.failure).1
        = CallbackResult.emit ([7] ++ List.replicate (3 - ([7] : List Nat).length) 0) ∧
      emitLength (playoutCallback { buffer := [7], done := true } 3
        PullResult.failure).1 = 3) :=
  playout_pull_failure_policy { buffer := [7], done := true } 3 (by decide)

/-- Claim C3, as stated, is false: the hand-off queue between the capture
callback and the consumer is created with no capacity bound and
`put_nowait` never drops, so no bound `B` caps the number of buffered frames
across all callback sequences — after `B + 1` callbacks with a stalled
consumer the queue holds `B + 1` frames. -/
theorem capture_queue_unbounded_cex :
    ¬ ∃ B : Nat, ∀ n : Nat, (captureQueueAfter n).length ≤ B := by
  rintro ⟨B, hB⟩
  have h := hB (B + 1)
  rw [captureQueueAfter_length] at h
  omega

/-- Claim C3 amended: the capture callback never blocks the hardware thread —
it appends the frame to the hand-off queue and returns — but frames are never
dropped either: the queue is unbounded, and with a stalled consumer it holds
exactly `n` frames after `n` callback invocations. -/
theorem capture_callback_nonblocking_never_drops :
    (∀ (q : List (List Nat)) (f : List Nat), recordCallback q f = q ++ [f]) ∧
    (∀ n : Nat, (captureQueueAfter n).length = n) :=
  ⟨fun _ _ => rfl, captureQueueAfter_length⟩

/-! ## `QueueIterator` and the receive loop of `gemini_transcriber.py`

The `audio_in` queue carries `Option` values: `some frame` for a reply audio
chunk (`audio_in.put(part.inline_data.data)`) and `none` for the end marker
(`audio_in.put(None)` on `turn_complete`).  `QueueIterator.__anext__`
dequeues one item, yields it when it is not `None`, and raises
`StopAsyncIteration` when it is `None`. -/

/-- Outcome of one `QueueIterator.__anext__` call on a queue: yield the
dequeued item, raise `StopAsyncIteration`, or (empty queue) suspend on
`queue.get()` with no item available. -/
inductive AnextResult (α : Type) where
  | yields (a : α) (rest : List (Option α))
  | stopIteration (rest : List (Option α))
  | blocked
deriving DecidableEq, Repr

/-- Shallow embedding of `QueueIterator.__anext__` (`gemini_transcriber.py`
lines 20-27). -/
def anext : List (Option α) → AnextResult α
  | [] => AnextResult.blocked
  | some a :: rest => AnextResult.yields a rest
  | none :: rest => AnextResult.stopIteration rest

/-- The sequence of frames an `async for` consumer (the playback engine's
`play`) obtains by iterating `__anext__` until `StopAsyncIteration`:
every item before the first `None`, in order. -/
def playConsume : List (Option α) → List α
  | [] => []
  | none :: _ => []
  | some a :: rest => a :: playConsume rest

lemma playConsume_map_some (fs : List Nat) (suf : List (Option Nat)) :
    playConsume (fs.map some ++ none :: suf) = fs := by
  induction fs with
  | nil => rfl
  | cons f fs ih => simp [playConsume, ih]

/-- Shallow embedding of the `turn_complete` branch of the receive loop
(`gemini_transcriber.py` lines 114-121) as it acts on the `audio_in` queue:
the queued reply frames are left in place and a `None` end marker is enqueued
behind them.  No drain of `audio_in` occurs anywhere in the source. -/
def handleTurnComplete (audio_in : List (Option Nat)) : List (Option Nat) :=
  audio_in ++ [none]

/-! ## Claims C2 and C8 -/

/-- Claim C2, as stated, is false: with 3 unplayed reply frames queued,
signalling turn complete does not discard them — the consumer still receives
all 3 frames (followed by the end marker), so the set of frames delivered
after the turn-complete signal is not empty. -/
theorem turn_complete_discard_cex :
    playConsume (handleTurnComplete [some 1, some 2, some 3]) = [1, 2, 3] ∧
    playConsume (handleTurnComplete [some 1, some 2, some 3]) ≠ [] := by
  refine ⟨rfl, by decide⟩

/-- Claim C2 amended: when turn complete is signalled while `K` unplayed
reply frames are queued, none of them is discarded: the handler enqueues a
`None` end-of-stream marker behind them, so the consumer receives all `K`
queued frames in order and the consumed frame sequence then terminates at the
marker (frames of a next turn, enqueued behind the marker, are not delivered
to this iteration). -/
theorem turn_complete_enqueues_marker_not_drain (frames : List Nat) :
    handleTurnComplete (frames.map some) = frames.map some ++ [none] ∧
    playConsume (handleTurnComplete (frames.map some)) = frames :=
  ⟨rfl, playConsume_map_some frames []⟩

/-- Claim C8: `__anext__` yields the dequeued item exactly when it is not
`None` and raises `StopAsyncIteration` exactly when it is `None`; hence a
`None` in the playback input queue terminates the sequence consumed by
`play`, and a frame is delivered precisely when no `None` precedes it. -/
theorem queue_iterator_semantics :
    (∀ (a : Nat) (rest : List (Option Nat)),
      anext (some a :: rest) = AnextResult.yields a rest) ∧
    (∀ rest : List (Option Nat),
      anext (none :: rest) = AnextResult.stopIteration rest) ∧
    (∀ (fs : List Nat) (suf : List (Option Nat)),
      playConsume (fs.map some ++ none :: suf) = fs) :=
  ⟨fun _ _ => rfl, fun _ => rfl, playConsume_map_some⟩

/-! ## Session management of `GeminiTranscriber`

`transcribe_audio` lazily creates `session_task` (once: the attribute is
never reset outside `stop_session`); the task body `start_session` connects
at most once (`if self.session is None` guards a single `connect`); a receive
error closes the session, sets it to `None` and lets the task finish — no
reconnect, no retry counter, no caller-supplied threshold exists in the
source. -/

/-- Session-management state of a `GeminiTranscriber`: whether
`session_task` has been created, whether its body already ran, whether
`self.session` is open, and how many live-connect attempts were made. -/
structure GTState where
  taskCreated : Bool
  taskRan : Bool
  sessionOpen : Bool
  connectCount : Nat
deriving DecidableEq, Repr

/-- Events acting on the session state: the ensure-session check at the top
of `transcribe_audio`, the created task running `start_session` up to the
connect, and an exception in the receive loop (lines 123-127). -/
inductive GTEvent where
  | ensureSession
  | runSessionTask
  | receiveError
deriving DecidableEq, Repr

/-- Shallow embedding of the session-management transitions of
`gemini_transcriber.py`. -/
def gtStep (s : GTState) : GTEvent → GTState
  | GTEvent.ensureSession =>
      if s.taskCreated then s else { s with taskCreated := true }
  | GTEvent.runSessionTask =>
      if s.taskCreated && !s.taskRan then
        if s.sessionOpen then { s with taskRan := true }
        else { s with taskRan := true, sessionOpen := true,
                      connectCount := s.connectCount + 1 }
      else s
  | GTEvent.receiveError => { s with sessionOpen := false }

/-- The transcriber starts with no task and no session. -/
def gtInit : GTState := { taskCreated := false, taskRan := false,
                          sessionOpen := false, connectCount := 0 }

/-- State after a sequence of session-management events. -/
def gtRun (events : List GTEvent) : GTState := events.foldl gtStep gtInit

lemma gtStep_connect_inv (s : GTState) (e : GTEvent)
    (h : s.connectCount ≤ s.taskRan.toNat) :
    (gtStep s e).connectCount ≤ (gtStep s e).taskRan.toNat := by
  cases e with
  | ensureSession =>
      by_cases hc : s.taskCreated <;> simp [gtStep, hc, h]
  | runSessionTask =>
      cases hg : s.taskCreated && !s.taskRan with
      | false => simpa [gtStep, hg] using h
      | true =>
          have hr : s.taskRan = false := by
            cases hcr : s.taskRan <;> simp [hcr] at hg ⊢
          rw [hr] at h
          simp [Bool.toNat] at h
          by_cases ho : s.sessionOpen <;> simp [gtStep, hg, ho, h, Bool.toNat]
  | receiveError => simpa [gtStep] using h

lemma gtRun_connect_inv (events : List GTEvent) :
    ∀ s : GTState, s.connectCount ≤ s.taskRan.toNat →
      (events.foldl gtStep s).connectCount ≤ (events.foldl gtStep s).taskRan.toNat := by
  induction events with
  | nil => intro s h; simpa using h
  | cons e es ih =>
      intro s h
      simpa [List.foldl_cons] using ih (gtStep s e) (gtStep_connect_inv s e h)

/-! ## Claim C6 -/

/-- Claim C6, as stated, is false: after a transient receive error the link
does not restart its session.  Concrete trace: the session task is created
and runs (one connect), a receive error closes the session, and further
`transcribe_audio` calls find `session_task` non-`None` and create nothing —
the session stays closed and the connect count stays at 1 (no second
attempt, no restart, no threshold). -/
theorem gt_no_restart_after_error_cex :
    (gtRun [GTEvent.ensureSession, GTEvent.runSessionTask, GTEvent.receiveError,
            GTEvent.ensureSession, GTEvent.runSessionTask,
            GTEvent.ensureSession]).sessionOpen = false ∧
    (gtRun [GTEvent.ensureSession, GTEvent.runSessionTask, GTEvent.receiveError,
            GTEvent.ensureSession, GTEvent.runSessionTask,
            GTEvent.ensureSession]).connectCount = 1 := by
  refine ⟨rfl, rfl⟩

/-- Claim C6 amended: a transient link error does not terminate the
orchestrator (the receive loop catches it and merely closes the session),
but no session restart is ever attempted: along every sequence of
session-management events, at most one live-connect attempt is made over the
transcriber's lifetime, and no retry threshold or escalation exists. -/
theorem gt_connect_at_most_once (events : List GTEvent) :
    (gtRun events).connectCount ≤ 1 := by
  have h := gtRun_connect_inv events gtInit (by simp [gtInit])
  have hle : ((gtRun events).taskRan).toNat ≤ 1 := by
    cases (gtRun events).taskRan <;> simp [Bool.toNat]
  exact le_trans h hle

/-! ## `transcribe_audio` of `gemini_transcriber.py` (lines 151-178)

The whole body sits in a `try` whose `except Exception` logs and returns
`None`; every normal path also returns `None`.  The `audio_out` queue has
`maxsize=50`; a frame is enqueued only when `qsize() < 50` and the
100 ms-bounded `put` does not time out. -/

/-- Outcome of `asyncio.wait_for(self.audio_out.put(audio_data), timeout=0.1)`. -/
inductive PutOutcome where
  | ok
  | timedOut
deriving DecidableEq, Repr

/-- Observable result of one `transcribe_audio` call: the `session_task`
attribute afterwards (`true` = not `None`), whether the frame was enqueued
toward the sender, the Python return value, and whether an exception escaped
to the caller. -/
structure TranscribeResult where
  session_task : Bool
  enqueued : Bool
  ret : Option Unit
  raised : Bool
deriving DecidableEq, Repr

/-- Shallow embedding of `GeminiTranscriber.transcribe_audio`:
`session_task` is the pre-call attribute, `qsize` the current length of
`audio_out`, `put` the outcome of the bounded enqueue.  The surrounding
`except Exception` clause maps any escaped exception to a plain
`return None`, so `raised` is `false` on every path. -/
def transcribe_audio (session_task : Bool) (qsize : Nat) (put : PutOutcome) :
    TranscribeResult :=
  let st := if session_task then session_task else true
  if 50 ≤ qsize then
    { session_task := st, enqueued := false, ret := none, raised := false }
  else
    match put with
    | PutOutcome.ok =>
        { session_task := st, enqueued := true, ret := none, raised := false }
    | PutOutcome.timedOut =>
        { session_task := st, enqueued := false, ret := none, raised := false }

/-! ## Claim C9 -/

/-- Claim C9: `transcribe_audio` is total at its interface: every call
returns `None` and propagates no exception; the frame is enqueued exactly
when the outbound queue holds fewer than 50 items and the bounded put does
not time out — a full queue or a timeout silently discards the frame and the
call still returns `None`. -/
theorem transcribe_audio_total (session_task : Bool) (qsize : Nat)
    (put : PutOutcome) :
    (transcribe_audio session_task qsize put).ret = none ∧
    (transcribe_audio session_task qsize put).raised = false ∧
    ((transcribe_audio session_task qsize put).enqueued = true ↔
      (qsize < 50 ∧ put = PutOutcome.ok)) := by
  by_cases h : 50 ≤ qsize
  · have h2 : ¬ qsize < 50 := by omega
    simp [transcribe_audio, h, h2]
  · have h2 : qsize < 50 := by omega
    cases put <;> simp [transcribe_audio, h, h2]

/-- Witness for C9 at a concrete input: empty queue, successful put — the
call returns `None`, raises nothing, and the frame is enqueued. -/
theorem transcribe_audio_total_witness :
    (transcribe_audio false 0 PutOutcome.ok).ret = none ∧
    (transcribe_audio false 0 PutOutcome.ok).raised = false ∧
    (transcribe_audio false 0 PutOutcome.ok).enqueued = true :=
  ⟨(transcribe_audio_total false 0 PutOutcome.ok).1,
   (transcribe_audio_total false 0 PutOutcome.ok).2.1,
   (transcribe_audio_total false 0 PutOutcome.ok).2.2.mpr ⟨by decide, rfl⟩⟩

/-! ## `translator.py`: frame routing, recording accumulator, shutdown -/

/-- Little-endian int16 decoding of one byte pair, as `np.frombuffer`
with `dtype=np.int16` performs it. -/
def int16OfLe (b0 b1 : Nat) : Int :=
  let v := b0 % 256 + 256 * (b1 % 256)
  if v < 32768 then (v : Int) else (v : Int) - 65536

/-- `np.frombuffer(audio_data, dtype=np.int16)`: decode a byte string into a
sample array; a byte count that is not a multiple of the 2-byte element size
raises (returns `none`). -/
def bytesToInt16 : List Nat → Option (List Int)
  | [] => some []
  | [_] => none
  | b0 :: b1 :: rest => (bytesToInt16 rest).map (fun arr => int16OfLe b0 b1 :: arr)

/-- Shallow embedding of `AudioTranslator.process_audio` (`translator.py`
lines 87-98): decode the captured bytes, append the sample array to
`recording_buffer`, then forward the raw bytes to the transcriber; the
enclosing `except Exception` swallows any failure (of the decode or of the
forwarding), so the append is retained and nothing propagates.  Returns the
new recording buffer and whether an exception escaped. -/
def process_audio (recording_buffer : List (List Int)) (audio_data : List Nat)
    (sendFails : Bool) : List (List Int) × Bool :=
  match bytesToInt16 audio_data with
  | none => (recording_buffer, false)
  | some arr =>
      let buf := recording_buffer ++ [arr]
      match sendFails with
      | true => (buf, false)
      | false => (buf, false)

/-- Shallow embedding of `AudioTranslator.save_wav` (`translator.py` lines
73-85): empty data writes no file; otherwise the data is written with sample
rate `sample_rate or self.input_sample_rate` (Python `or`: `None` and `0`
both fall back to the input rate).  Returns the written (data, rate), if
any. -/
def save_wav (audio_data : List Int) (sample_rate : Option Nat)
    (input_sample_rate : Nat) : Option (List Int × Nat) :=
  if audio_data.length = 0 then none
  else
    let rate := match sample_rate with
      | none => input_sample_rate
      | some r => if r = 0 then input_sample_rate else r
    some (audio_data, rate)

/-- Shallow embedding of the recording flush in the `finally` block of
`AudioTranslator.start_streaming` (`translator.py` lines 117-122): when
`recording_buffer` is nonempty, `np.concatenate` of its arrays is handed to
`save_wav` with the default (capture) sample rate and the buffer is cleared.
Returns the written file content, if any, and the buffer afterwards. -/
def finalizeRecording (recording_buffer : List (List Int))
    (input_sample_rate : Nat) : Option (List Int × Nat) × List (List Int) :=
  if recording_buffer.isEmpty then (none, recording_buffer)
  else (save_wav recording_buffer.flatten none input_sample_rate, [])

/-- Resources owned by an `AudioTranslator` session: the running flag, the
(spec-modelled) recorder and player streams, and the transcriber's send
task, session task and live session. -/
structure SessionRes where
  running : Bool
  recorderActive : Bool
  playerActive : Bool
  sendTask : Bool
  sessionTask : Bool
  session : Bool
deriving DecidableEq, Repr

/-- Shallow embedding of `GeminiTranscriber.stop_session` (lines 129-149):
cancel the send task, cancel the session task, close the session — each only
if present — and clear all three.  Also returns the number of cancel/close
actions performed. -/
def stop_session (s : SessionRes) : SessionRes × Nat :=
  ({ s with sendTask := false, sessionTask := false, session := false },
   s.sendTask.toNat + s.sessionTask.toNat + s.session.toNat)

/-- Modelled from the spec: `AudioRecorder.stop` — the class is imported by
`translator.py` but absent from the source tree; per the capture-engine
contract, `stop()` closes the input stream (a no-op when not active) and is
safe to call repeatedly.  Returns the close count. -/
def recorderStop (s : SessionRes) : SessionRes × Nat :=
  ({ s with recorderActive := false }, s.recorderActive.toNat)

/-- Modelled from the spec: `AudioPlayer.stop` — the class is imported by
`translator.py` but absent from the source tree; per the playback-engine
contract, `stop()` is idempotent and releases the output stream.  Returns
the close count. -/
def playerStop (s : SessionRes) : SessionRes × Nat :=
  ({ s with playerActive := false }, s.playerActive.toNat)

/-- Shallow embedding of `AudioTranslator.stop` (`translator.py` lines
142-152): clear `running`, stop the recorder, stop the player, then stop the
transcriber session.  Returns the final state and the total number of
cancel/close actions performed. -/
def translatorStop (s : SessionRes) : SessionRes × Nat :=
  let s0 := { s with running := false }
  let r1 := recorderStop s0
  let r2 := playerStop r1.1
  let r3 := stop_session r2.1
  (r3.1, r1.2 + r2.2 + r3.2)

/-! ## Claims C5, C7 and C10 -/

/-- Claim C5: the recording accumulator is flushed as one contiguous buffer —
the in-order concatenation of every appended frame — at the capture sample
rate; an empty concatenation writes no file; and after the flush the buffer
is cleared, so a repeated finalization writes nothing (flush happens at most
once). -/
theorem recording_flushed_once (buf : List (List Int)) (rate : Nat) :
    (buf.flatten ≠ [] →
      (finalizeRecording buf rate).1 = some (buf.flatten, rate)) ∧
    (buf.flatten = [] → (finalizeRecording buf rate).1 = none) ∧
    (finalizeRecording (finalizeRecording buf rate).2 rate).1 = none := by
  by_cases hb : buf.isEmpty
  · refine ⟨?_, ?_, ?_⟩ <;>
      simp_all [finalizeRecording, List.isEmpty_iff]
  · have hne : finalizeRecording buf rate = (save_wav buf.flatten none rate, []) := by
      unfold finalizeRecording
      rw [if_neg hb]
    refine ⟨?_, ?_, ?_⟩
    · intro hf
      rw [hne]
      show save_wav buf.flatten none rate = some (buf.flatten, rate)
      unfold save_wav
      rw [if_neg (fun h0 => hf (List.length_eq_zero.mp h0))]
    · intro hf
      rw [hne]
      show save_wav buf.flatten none rate = none
      unfold save_wav
      rw [if_pos (by simp [hf])]
    · rw [hne]
      show (finalizeRecording [] rate).1 = none
      simp [finalizeRecording]

/-- Witness for C5 at a concrete input: two appended frames concatenate to
`[1, 2, 3]`, written at 16000 Hz; re-finalizing the cleared buffer writes
nothing. -/
theorem recording_flushed_once_witness :
    (finalizeRecording [[1, 2], [3]] 16000).1 = some ([1, 2, 3], 16000) ∧
    (finalizeRecording (finalizeRecording [[1, 2], [3]] 16000).2 16000).1 = none :=
  ⟨(recording_flushed_once [[1, 2], [3]] 16000).1 (by decide),
   (recording_flushed_once [[1, 2], [3]] 16000).2.2⟩

/-- Claim C7: `stop()` is idempotent: a second invocation (from any state,
including one where startup never completed) leaves the same terminal state
as the first — `running` false, recorder and player stopped, link resources
cleared — and performs zero further cancel/close actions, so each resource
is closed at most once across repeated calls. -/
theorem translator_stop_idempotent (s : SessionRes) :
    (translatorStop (translatorStop s).1).1 = (translatorStop s).1 ∧
    (translatorStop (translatorStop s).1).2 = 0 ∧
    (translatorStop s).1.running = false ∧
    (translatorStop s).1.recorderActive = false ∧
    (translatorStop s).1.playerActive = false ∧
    (translatorStop s).1.sendTask = false ∧
    (translatorStop s).1.sessionTask = false ∧
    (translatorStop s).1.session = false := by
  refine ⟨rfl, rfl, rfl, rfl, rfl, rfl, rfl, rfl⟩

/-- Claim C10: for every decodable captured frame, `process_audio` appends
the decoded samples to the recording buffer and keeps them there whether or
not the forwarding to the transcriber fails, and no exception propagates to
the capture loop. -/
theorem process_audio_appends_and_swallows (buf : List (List Int))
    (audio_data : List Nat) (sendFails : Bool) (arr : List Int)
    (h : bytesToInt16 audio_data = some arr) :
    (process_audio buf audio_data sendFails).1 = buf ++ [arr] ∧
    (process_audio buf audio_data sendFails).2 = false := by
  cases sendFails <;> simp [process_audio, h]

/-- Witness for C10 at a concrete input: the bytes `[1, 0, 254, 255]` decode
to samples `[1, -2]`, which are appended and retained even though the
forwarding fails. -/
theorem process_audio_appends_and_swallows_witness :
    (process_audio [] [1, 0, 254, 255] true).1 = [] ++ [[1, -2]] ∧
    (process_audio [] [1, 0, 254, 255] true).2 = false :=
  process_audio_appends_and_swallows [] [1, 0, 254, 255] true [1, -2] (by decide)
